import Mathlib

/-!
Shallow embedding of `scrapy_do/webservice.py`: the JSON web-service layer of
the scrapy-do job scheduler.  Python dictionaries that become JSON objects are
modelled as ordered association lists (Python dicts preserve insertion order),
`json.dumps` as a structural serializer, the mutable Twisted request as an
explicit response-state record that handlers thread through, and Python
exceptions as an explicit error type returned through `Except`.  Controller
calls are recorded in a trace so that claims about which Controller operations
run can be stated.
-/

set_option autoImplicit false

/-- JSON values, as produced by the handlers in `webservice.py`. -/
inductive JValue where
  | str (s : String)
  | num (n : Int)
  | arr (elems : List JValue)
  | obj (fields : List (String × JValue))
  deriving Repr

/-- Ordered JSON object: the model of a Python dict with string keys. -/
abbrev JObj := List (String × JValue)

/-- Escape of one character inside a JSON string literal, as `json.dumps`
performs it for the plain ASCII strings this service emits. -/
def escChar (c : Char) : String :=
  if c = Char.ofNat 34 then "\\" ++ String.singleton (Char.ofNat 34)
  else if c = Char.ofNat 92 then "\\\\"
  else String.singleton c

/-- Escape of a whole string for inclusion in JSON output. -/
def escString (s : String) : String :=
  String.join (s.toList.map escChar)

mutual
/-- Model of `json.dumps` with the default separators, which Python renders as
a comma plus space between items and a colon plus space after each key. -/
def dumps : JValue → String
  | .str s => "\"" ++ escString s ++ "\""
  | .num n => toString n
  | .arr xs => "[" ++ dumpsList xs ++ "]"
  | .obj fs => "\x7b" ++ dumpsFields fs ++ "\x7d"

/-- Serialization of the elements of a JSON array. -/
def dumpsList : List JValue → String
  | [] => ""
  | [x] => dumps x
  | x :: y :: xs => dumps x ++ ", " ++ dumpsList (y :: xs)

/-- Serialization of the fields of a JSON object. -/
def dumpsFields : List (String × JValue) → String
  | [] => ""
  | [(k, v)] => "\"" ++ escString k ++ "\": " ++ dumps v
  | (k, v) :: f :: fs =>
      "\"" ++ escString k ++ "\": " ++ dumps v ++ ", " ++ dumpsFields (f :: fs)
end

/-- Lookup of a key in an ordered JSON object; model of `d[k]` read access. -/
def JObj.get? (d : JObj) (k : String) : Option JValue :=
  (d.find? (fun p => p.1 == k)).map (fun p => p.2)

/-- Insertion of one key into an ordered dict with Python update semantics: an
existing key keeps its position and receives the new value, a new key is
appended at the end. -/
def dictInsert (d : JObj) (k : String) (v : JValue) : JObj :=
  if d.any (fun p => p.1 == k) then
    d.map (fun p => if p.1 == k then (k, v) else p)
  else
    d ++ [(k, v)]

/-- Model of the Python dict merge written with a double star for each operand:
entries of `b` are inserted into `a` in order, later keys overriding. -/
def dictMerge (a b : JObj) : JObj :=
  b.foldl (fun d p => dictInsert d p.1 p.2) a

/-- Python exceptions that can reach the rendering layer.  `keyError k` stands
for `KeyError(b'k')` raised by a missing key in `request.args`; its Python
`str` form is the repr of the bytes key.  `indexError` stands for the
`IndexError` raised by indexing an empty value list.  `missingArgument` and
`unknownStatus` are the errors of the spec's taxonomy raised by the external
helpers `arg_require_all` / `arg_require_any` and by the Job Status lookup;
`controllerError` is any exception surfaced by a Controller call, carrying
its message. -/
inductive PyErr where
  | keyError (key : String)
  | indexError
  | missingArgument (msg : String)
  | unknownStatus (msg : String)
  | controllerError (msg : String)
  deriving Repr, DecidableEq

/-- Python `str(e)` for each modelled exception.  For `KeyError` on a bytes
key, `str` gives the repr of the key: the letter b and the key in single
quotes. -/
def PyErr.str : PyErr → String
  | .keyError k => "b\x27" ++ k ++ "\x27"
  | .indexError => "list index out of range"
  | .missingArgument m => m
  | .unknownStatus m => m
  | .controllerError m => m

/-- Inbound request: the decoded `request.args` multi-map from argument name
to its list of values.  Twisted produces only non-empty value lists; the
`wellFormed` predicate below captures that. -/
structure Request where
  args : List (String × List String)
  deriving Repr

/-- Membership test of an argument name, model of `b'name' in request.args`. -/
def Request.hasArg (req : Request) (name : String) : Bool :=
  req.args.any (fun p => p.1 == name)

/-- Value list of an argument, model of `request.args[b'name']` when present. -/
def Request.getArg? (req : Request) (name : String) : Option (List String) :=
  (req.args.find? (fun p => p.1 == name)).map (fun p => p.2)

/-- Model of `request.args[b'name'][0]`: raises `KeyError` when the name is
absent and `IndexError` when its value list is empty. -/
def Request.getFirst (req : Request) (name : String) : Except PyErr String :=
  match req.getArg? name with
  | none => .error (.keyError name)
  | some [] => .error .indexError
  | some (v :: _) => .ok v

/-- Requests produced by Twisted map every present argument to at least one
value. -/
def Request.wellFormed (req : Request) : Bool :=
  req.args.all (fun p => !p.2.isEmpty)

/-- Mutable response state of a Twisted request: status code, the two headers
this service sets, the bodies passed to `request.write`, and the number of
`request.finish` calls. -/
structure Response where
  code : Nat := 200
  contentType : Option String := none
  contentLength : Option Nat := none
  writes : List String := []
  finished : Nat := 0
  deriving Repr, DecidableEq

/-- Model of `request.setResponseCode`. -/
def Response.setCode (r : Response) (c : Nat) : Response :=
  { r with code := c }

/-- Model of `request.write`. -/
def Response.writeBody (r : Response) (body : String) : Response :=
  { r with writes := r.writes ++ [body] }

/-- Model of `request.finish`. -/
def Response.finish (r : Response) : Response :=
  { r with finished := r.finished + 1 }

/-- Model of `JsonResource.render_json`: serializes the dict with a trailing
newline, sets the content type and the exact byte length, and returns the
body. -/
def render_json (r : Response) (data : JObj) : Response × String :=
  let body := dumps (.obj data) ++ "\n"
  ({ r with contentType := some "application/json",
            contentLength := some body.utf8ByteSize }, body)

/-- Success envelope built by `JsonResource.render`: the merge of the base
dict carrying status ok with the operation data, with the data overriding on
key collision. -/
def successEnvelope (data : JObj) : JObj :=
  dictMerge [("status", JValue.str "ok")] data

/-- Error envelope built by `JsonResource.render` from the message of the
caught exception. -/
def errorEnvelope (msg : String) : JObj :=
  [("status", JValue.str "error"), ("msg", JValue.str msg)]

/-- Outcome of dispatching a request to a resource: either a synchronous
result (a dict, or a raised exception) or the `NOT_DONE_YET` sentinel of an
asynchronous handler. -/
inductive HandlerOut where
  | sync (res : Except PyErr JObj)
  | notDoneYet

/-- Model of `JsonResource.render`: passes the sentinel through untouched,
wraps a synchronous dict into the success envelope, and catches any raised
exception, setting code 400 and emitting the error envelope.  The returned
body is `none` exactly when the sentinel was passed through. -/
def JsonResource.render (out : HandlerOut) (r : Response) : Response × Option String :=
  match out with
  | .notDoneYet => (r, none)
  | .sync (.ok data) =>
      let (r2, body) := render_json r (successEnvelope data)
      (r2, some body)
  | .sync (.error e) =>
      let r1 := r.setCode 400
      let (r2, body) := render_json r1 (errorEnvelope (PyErr.str e))
      (r2, some body)

/-- Job record of the external scheduler: in this layer only its dict
serialization `to_dict` is consumed. -/
structure Job where
  to_dict : JObj

/-- Controller interface, the external contract of section 6 of the spec.
Each operation may fail; a failure carries the message text of the raised
exception.  Statuses are passed as their validated enumeration member name. -/
structure Controller where
  push_project : String → String → Except String (List String)
  get_projects : Except String (List String)
  get_spiders : String → Except String (List String)
  schedule_job : String → String → String → Except String String
  get_jobs : String → Except String (List Job)
  get_job : String → Except String Job
  cancel_job : String → Except String Unit

/-- Trace entry recording one Controller invocation together with its
arguments. -/
inductive CtrlCall where
  | push_project (name data : String)
  | get_projects
  | get_spiders (project : String)
  | schedule_job (project spider when_ : String)
  | get_jobs (status : String)
  | get_job (id : String)
  | cancel_job (id : String)
  deriving Repr, DecidableEq

/-- Modelled from the spec: `arg_require_all` is imported from
`scrapy_do.utils`, whose source is not included.  Section 4.1 states that it
fails with a `MissingArgument` error carrying the missing name if any
required name is absent from the argument mapping, with no side effects. -/
def arg_require_all (req : Request) (names : List String) : Except PyErr Unit :=
  match names.find? (fun n => !req.hasArg n) with
  | some n => .error (.missingArgument ("Missing argument: " ++ n))
  | none => .ok ()

/-- Modelled from the spec: `arg_require_any` is imported from
`scrapy_do.utils`, whose source is not included.  Section 4.1 states that it
fails with a `MissingArgument` error if none of the alternative names is
present; the message names the alternatives. -/
def arg_require_any (req : Request) (names : List String) : Except PyErr Unit :=
  if names.any req.hasArg then .ok ()
  else .error (.missingArgument ("Missing argument: " ++ String.intercalate " or " names))

/-- Modelled from the spec: the Job Status enumeration is external (section
3).  Decoding looks up the supplied string among the member names and an
unknown name fails with an `UnknownStatus` error (section 4.3).  `valid` is
the list of member names of the enumeration. -/
def jobStatusLookup (valid : List String) (s : String) : Except PyErr String :=
  if valid.contains s then .ok s else .error (.unknownStatus ("Unknown status: " ++ s))

/-- Model of `Status.render_GET`: process introspection is external, so the
sampled memory and cpu figures are parameters.  Returns the result dict and
the (empty) Controller trace. -/
def Status.render_GET (mem cpu : JValue) : Except PyErr JObj × List CtrlCall :=
  (.ok [("memory-usage", mem), ("cpu-usage", cpu)], [])

/-- Model of `ListProjects.render_GET`. -/
def ListProjects.render_GET (c : Controller) : Except PyErr JObj × List CtrlCall :=
  match c.get_projects with
  | .ok projects => (.ok [("projects", JValue.arr (projects.map JValue.str))], [.get_projects])
  | .error m => (.error (.controllerError m), [.get_projects])

/-- Model of `ListSpiders.render_GET`. -/
def ListSpiders.render_GET (c : Controller) (req : Request) :
    Except PyErr JObj × List CtrlCall :=
  match arg_require_all req [ "project"] with
  | .error e => (.error e, [])
  | .ok () =>
    match req.getFirst "project" with
    | .error e => (.error e, [])
    | .ok project =>
      match c.get_spiders project with
      | .ok spiders =>
          (.ok [("project", JValue.str project),
                ("spiders", JValue.arr (spiders.map JValue.str))],
           [.get_spiders project])
      | .error m => (.error (.controllerError m), [.get_spiders project])

/-- Model of `ScheduleJob.render_POST`. -/
def ScheduleJob.render_POST (c : Controller) (req : Request) :
    Except PyErr JObj × List CtrlCall :=
  match arg_require_all req [ "project", "spider", "when"] with
  | .error e => (.error e, [])
  | .ok () =>
    match req.getFirst "project" with
    | .error e => (.error e, [])
    | .ok project =>
      match req.getFirst "spider" with
      | .error e => (.error e, [])
      | .ok spider =>
        match req.getFirst "when" with
        | .error e => (.error e, [])
        | .ok when_ =>
          match c.schedule_job project spider when_ with
          | .ok job_id => (.ok [("identifier", JValue.str job_id)],
                           [.schedule_job project spider when_])
          | .error m => (.error (.controllerError m), [.schedule_job project spider when_])

/-- Model of `ListJobs.render_GET`: requires at least one of the status and
id arguments, prefers the status branch, decodes the status through the Job
Status enumeration, and wraps the single job of the id branch in a
one-element list. -/
def ListJobs.render_GET (valid : List String) (c : Controller) (req : Request) :
    Except PyErr JObj × List CtrlCall :=
  match arg_require_any req [ "status", "id"] with
  | .error e => (.error e, [])
  | .ok () =>
    if req.hasArg "status" then
      match req.getFirst "status" with
      | .error e => (.error e, [])
      | .ok s =>
        match jobStatusLookup valid s with
        | .error e => (.error e, [])
        | .ok st =>
          match c.get_jobs st with
          | .ok jobs =>
              (.ok [("jobs", JValue.arr (jobs.map (fun j => JValue.obj j.to_dict)))],
               [.get_jobs st])
          | .error m => (.error (.controllerError m), [.get_jobs st])
    else
      match req.getFirst "id" with
      | .error e => (.error e, [])
      | .ok identifier =>
        match c.get_job identifier with
        | .ok job =>
            (.ok [("jobs", JValue.arr [JValue.obj job.to_dict])], [.get_job identifier])
        | .error m => (.error (.controllerError m), [.get_job identifier])

/-- Result of running an asynchronous resource: the final response state, the
Controller trace, and the value the handler returned to the framework. -/
structure AsyncRun where
  resp : Response
  calls : List CtrlCall
  returned : HandlerOut

/-- Argument extraction of `PushProject.render_POST`: the name (decoded) and
the archive bytes, in source order. -/
def PushProject.parse (req : Request) : Except PyErr (String × String) := do
  let name ← req.getFirst "name"
  let data ← req.getFirst "archive"
  pure (name, data)

/-- Model of `PushProject.render_POST`.  The inner `do_async` coroutine runs
to completion here: the except clause around argument extraction catches only
`KeyError`, so any other exception there fails the deferred without writing
anything; the second try block catches every exception of the Controller
call.  The handler itself returns the `NOT_DONE_YET` sentinel. -/
def PushProject.render_POST (c : Controller) (req : Request) (r : Response) : AsyncRun :=
  match PushProject.parse req with
  | .error (.keyError k) =>
      let result := errorEnvelope ("Missing argument: " ++ PyErr.str (.keyError k))
      let (r2, body) := render_json (r.setCode 400) result
      { resp := (r2.writeBody body).finish, calls := [], returned := .notDoneYet }
  | .error _ =>
      { resp := r, calls := [], returned := .notDoneYet }
  | .ok (name, data) =>
      match c.push_project name data with
      | .ok spiders =>
          let result : JObj :=
            [("status", JValue.str "ok"), ("spiders", JValue.arr (spiders.map JValue.str))]
          let (r2, body) := render_json r result
          { resp := (r2.writeBody body).finish,
            calls := [.push_project name data], returned := .notDoneYet }
      | .error m =>
          let (r2, body) := render_json (r.setCode 400) (errorEnvelope m)
          { resp := (r2.writeBody body).finish,
            calls := [.push_project name data], returned := .notDoneYet }

/-- Model of `CancelJob.render_POST`, with the same structure as
`PushProject.render_POST`: only `KeyError` is caught around argument
extraction, every exception of the Controller call is caught, and the handler
returns the `NOT_DONE_YET` sentinel. -/
def CancelJob.render_POST (c : Controller) (req : Request) (r : Response) : AsyncRun :=
  match req.getFirst "id" with
  | .error (.keyError k) =>
      let result := errorEnvelope ("Missing argument: " ++ PyErr.str (.keyError k))
      let (r2, body) := render_json (r.setCode 400) result
      { resp := (r2.writeBody body).finish, calls := [], returned := .notDoneYet }
  | .error _ =>
      { resp := r, calls := [], returned := .notDoneYet }
  | .ok job_id =>
      match c.cancel_job job_id with
      | .ok () =>
          let result : JObj := [("status", JValue.str "ok")]
          let (r2, body) := render_json r result
          { resp := (r2.writeBody body).finish,
            calls := [.cancel_job job_id], returned := .notDoneYet }
      | .error m =>
          let (r2, body) := render_json (r.setCode 400) (errorEnvelope m)
          { resp := (r2.writeBody body).finish,
            calls := [.cancel_job job_id], returned := .notDoneYet }

/-- Configuration values consumed by `get_web_app` and `WebApp.__init__`:
the web auth flag, the auth database path, and the configured extension
modules as pairs of path segment and handler class name. -/
structure Config where
  web_auth : Bool
  web_auth_db : String
  web_modules : List (String × String)
  deriving Repr, DecidableEq

/-- Resource tree of `WebApp.__init__`: the root child under the empty path
segment plus one child per configured web module.  The dynamically resolved
handler instance of each module is modelled by its class name. -/
structure WebApp where
  config : Config
  controller : Controller
  routes : List (String × String)

/-- Model of the `WebApp` constructor: registers the Home resource under the
empty segment, then every configured extension module. -/
def mkWebApp (cfg : Config) (c : Controller) : WebApp :=
  { config := cfg, controller := c, routes := ("", "Home") :: cfg.web_modules }

/-- Realm of the authentication gate, holding the values that
`PublicHTMLRealm.__init__` stores. -/
structure PublicHTMLRealm where
  config : Config
  controller : Controller

/-- Interfaces a Twisted avatar request may name. -/
inductive Interface where
  | iResource
  | other (name : String)
  deriving Repr, DecidableEq

/-- Model of `PublicHTMLRealm.requestAvatar`: when `IResource` is among the
requested interfaces it builds a fresh `WebApp` from the stored config and
controller, otherwise it raises `NotImplementedError`. -/
def PublicHTMLRealm.requestAvatar (realm : PublicHTMLRealm) (interfaces : List Interface) :
    Except String WebApp :=
  if interfaces.contains .iResource then .ok (mkWebApp realm.config realm.controller)
  else .error "NotImplementedError"

/-- Resource returned by `get_web_app`: the plain tree, or the tree wrapped
behind an HTTP Digest session gate recording the realm, the credential file
path, the digest algorithm and the realm token. -/
inductive WebService where
  | plain (app : WebApp)
  | digestGuarded (realm : PublicHTMLRealm) (authFile : String)
      (algorithm : String) (realmToken : String)

/-- Model of `get_web_app`: with auth configured on, a Digest gate (md5,
realm token scrapy-do) over a portal whose realm holds the config and the
controller and whose checker is the file password database at the configured
path; with auth off, the bare `WebApp`. -/
def get_web_app (cfg : Config) (c : Controller) : WebService :=
  if cfg.web_auth then
    .digestGuarded { config := cfg, controller := c } cfg.web_auth_db "md5" "scrapy-do"
  else
    .plain (mkWebApp cfg c)

/-- Concrete controller used to instantiate theorems on closed inputs. -/
def ctrlStub : Controller where
  push_project := fun _ _ => .ok ["spiderA", "spiderB"]
  get_projects := .ok ["p1"]
  get_spiders := fun _ => .ok ["s1"]
  schedule_job := fun _ _ _ => .ok "abc123"
  get_jobs := fun _ => .ok [⟨[("identifier", JValue.str "j1")]⟩]
  get_job := fun _ => .ok ⟨[("identifier", JValue.str "j1")]⟩
  cancel_job := fun _ => .ok ()

/-- Controller whose operations all fail, used to instantiate error paths on
closed inputs. -/
def ctrlFail : Controller where
  push_project := fun _ _ => .error "boom"
  get_projects := .error "boom"
  get_spiders := fun _ => .error "boom"
  schedule_job := fun _ _ _ => .error "boom"
  get_jobs := fun _ => .error "boom"
  get_job := fun _ => .error "boom"
  cancel_job := fun _ => .error "boom"

/-- Fresh response state at the start of a request. -/
def respInit : Response := {}

/-- Request carrying no arguments. -/
def reqEmpty : Request := ⟨[]⟩

/-- Request carrying the arguments of a valid schedule-job call. -/
def reqSched : Request := ⟨[("project", ["p1"]), ("spider", ["s1"]), ("when", ["now"])]⟩

/-- Request carrying the arguments of a valid push-project call. -/
def reqPush : Request := ⟨[("name", ["p1"]), ("archive", ["bytes"])]⟩

/-- Request selecting jobs by status. -/
def reqStatusArg : Request := ⟨[("status", ["RUNNING"])]⟩

/-- Request selecting one job by id. -/
def reqIdArg : Request := ⟨[("id", ["j1"])]⟩

/-- Request carrying both a status and an id argument. -/
def reqStatusAndId : Request := ⟨[("status", ["RUNNING"]), ("id", ["j1"])]⟩

/-- Request whose status argument names no enumeration member. -/
def reqBadStatus : Request := ⟨[("status", ["UNKNOWN"])]⟩

/-- Member names of the Job Status enumeration used on closed inputs. -/
def statusNames : List String := ["SCHEDULED", "PENDING", "RUNNING", "CANCELED", "SUCCESSFUL", "FAILED"]

/-- Substring occurrence test used to state that an error message mentions an
argument name. -/
def strContains (hay needle : String) : Bool :=
  decide (List.IsInfix needle.toList hay.toList)

theorem strContains_append_left (s n : String) : strContains (s ++ n) n = true := by
  rw [strContains, decide_eq_true_iff]
  exact ⟨s.toList, [], by simp [String.toList, String.data_append]⟩

theorem strContains_append (s n t : String) : strContains (s ++ n ++ t) n = true := by
  rw [strContains, decide_eq_true_iff]
  exact ⟨s.toList, t.toList, by simp [String.toList, String.data_append]⟩

theorem Request.getFirst_of_hasArg_false (req : Request) (name : String)
    (h : req.hasArg name = false) : req.getFirst name = .error (.keyError name) := by
  have hn : req.args.find? (fun p => p.1 == name) = none :=
    List.find?_eq_none.mpr (List.any_eq_false.mp h)
  unfold Request.getFirst Request.getArg?
  rw [hn]
  rfl

theorem Request.getFirst_of_wf_hasArg (req : Request) (name : String)
    (hwf : req.wellFormed = true) (h : req.hasArg name = true) :
    ∃ v, req.getFirst name = .ok v := by
  have hs : (req.args.find? (fun p => p.1 == name)).isSome = true :=
    List.find?_isSome.mpr (List.any_eq_true.mp h)
  obtain ⟨p, hp⟩ := Option.isSome_iff_exists.mp hs
  have hmem : p ∈ req.args := List.mem_of_find?_eq_some hp
  have hne : p.2 ≠ [] := by
    have := List.all_eq_true.mp hwf p hmem
    simpa [List.isEmpty_eq_false] using this
  obtain ⟨v, vs, hv⟩ := List.exists_cons_of_ne_nil hne
  refine ⟨v, ?_⟩
  unfold Request.getFirst Request.getArg?
  rw [hp]
  simp [hv]

theorem Request.hasArg_of_getFirst_ok (req : Request) (name v : String)
    (h : req.getFirst name = .ok v) : req.hasArg name = true := by
  unfold Request.getFirst at h
  cases hga : req.getArg? name with
  | none => rw [hga] at h; exact absurd h (by simp)
  | some vs =>
    unfold Request.getArg? at hga
    cases hf : req.args.find? (fun p => p.1 == name) with
    | none => rw [hf] at hga; exact absurd hga (by simp)
    | some q =>
      have hpred := List.find?_some hf
      exact List.any_eq_true.mpr ⟨q, List.mem_of_find?_eq_some hf, hpred⟩










/-- C1: when the synchronous handler dispatched by `JsonResource.render`
raises any error, the wrapper catches it, sets the response code to 400, and
returns the serialized error envelope whose msg field is exactly the raised
error's message text; being a total equation over every error, no error
escapes the wrapper uncaught. -/
theorem C1_render_catches_every_error (e : PyErr) (r : Response) :
    JsonResource.render (.sync (.error e)) r
      = ({ r with
            code := 400,
            contentType := some "application/json",
            contentLength := some (dumps (.obj (errorEnvelope (PyErr.str e))) ++ "\n").utf8ByteSize },
         some (dumps (.obj (errorEnvelope (PyErr.str e))) ++ "\n")) := rfl

/-- C2: the rendered body of every synchronous success is the serialization
of the success envelope, and on every success path of the five synchronous
operations the envelope's top-level status field is exactly the string ok. -/
theorem C2_success_status_ok :
    (∀ data r, (JsonResource.render (.sync (.ok data)) r).2
        = some (dumps (.obj (successEnvelope data)) ++ "\n")) ∧
    (∀ mem cpu data calls, Status.render_GET mem cpu = (.ok data, calls) →
        (successEnvelope data).get? "status" = some (JValue.str "ok")) ∧
    (∀ c data calls, ListProjects.render_GET c = (.ok data, calls) →
        (successEnvelope data).get? "status" = some (JValue.str "ok")) ∧
    (∀ c req data calls, ListSpiders.render_GET c req = (.ok data, calls) →
        (successEnvelope data).get? "status" = some (JValue.str "ok")) ∧
    (∀ c req data calls, ScheduleJob.render_POST c req = (.ok data, calls) →
        (successEnvelope data).get? "status" = some (JValue.str "ok")) ∧
    (∀ valid c req data calls, ListJobs.render_GET valid c req = (.ok data, calls) →
        (successEnvelope data).get? "status" = some (JValue.str "ok")) := by
  refine ⟨fun data r => rfl, ?_, ?_, ?_, ?_, ?_⟩
  · intro mem cpu data calls h
    simp only [Status.render_GET, Prod.mk.injEq, Except.ok.injEq] at h
    obtain ⟨rfl, -⟩ := h
    rfl
  · intro c data calls h
    unfold ListProjects.render_GET at h
    cases hc : c.get_projects with
    | ok ps =>
      rw [hc] at h
      simp only [Prod.mk.injEq, Except.ok.injEq] at h
      obtain ⟨rfl, -⟩ := h
      rfl
    | error m => rw [hc] at h; simp at h
  · intro c req data calls h
    unfold ListSpiders.render_GET at h
    repeat' split at h
    all_goals
      first
      | (simp only [Prod.mk.injEq, Except.ok.injEq] at h
         obtain ⟨rfl, -⟩ := h
         rfl)
      | simp at h
  · intro c req data calls h
    unfold ScheduleJob.render_POST at h
    repeat' split at h
    all_goals
      first
      | (simp only [Prod.mk.injEq, Except.ok.injEq] at h
         obtain ⟨rfl, -⟩ := h
         rfl)
      | simp at h
  · intro valid c req data calls h
    unfold ListJobs.render_GET at h
    repeat' split at h
    all_goals
      first
      | (simp only [Prod.mk.injEq, Except.ok.injEq] at h
         obtain ⟨rfl, -⟩ := h
         rfl)
      | simp at h

/-- Closed instantiation of the C2 theorem on concrete requests and a
concrete controller. -/
theorem C2_success_status_ok_witness :
    (successEnvelope [("memory-usage", JValue.num 7), ("cpu-usage", JValue.num 3)]).get? "status"
      = some (JValue.str "ok") ∧
    (successEnvelope [("projects", JValue.arr [JValue.str "p1"])]).get? "status"
      = some (JValue.str "ok") ∧
    (successEnvelope [("project", JValue.str "p1"), ("spiders", JValue.arr [JValue.str "s1"])]).get? "status"
      = some (JValue.str "ok") ∧
    (successEnvelope [("identifier", JValue.str "abc123")]).get? "status"
      = some (JValue.str "ok") ∧
    (successEnvelope [("jobs", JValue.arr [JValue.obj [("identifier", JValue.str "j1")]])]).get? "status"
      = some (JValue.str "ok") :=
  ⟨C2_success_status_ok.2.1 (JValue.num 7) (JValue.num 3) _ [] rfl,
   C2_success_status_ok.2.2.1 ctrlStub _ [.get_projects] rfl,
   C2_success_status_ok.2.2.2.1 ctrlStub ⟨[("project", ["p1"])]⟩ _ [.get_spiders "p1"] rfl,
   C2_success_status_ok.2.2.2.2.1 ctrlStub reqSched _ [.schedule_job "p1" "s1" "now"] rfl,
   C2_success_status_ok.2.2.2.2.2 statusNames ctrlStub reqStatusArg _ [.get_jobs "RUNNING"] rfl⟩

theorem arg_require_all_single_missing (req : Request) (name : String)
    (h : req.hasArg name = false) :
    arg_require_all req [ name] = .error (.missingArgument ("Missing argument: " ++ name)) := by
  unfold arg_require_all
  have hfind : List.find? (fun n => !req.hasArg n) [ name] = some name :=
    List.find?_cons_of_pos _ (by simp [h])
  rw [hfind]

theorem arg_require_all_missing (req : Request) (names : List String) (a : String)
    (ha : a ∈ names) (h : req.hasArg a = false) :
    ∃ n, n ∈ names ∧ req.hasArg n = false ∧
      arg_require_all req names = .error (.missingArgument ("Missing argument: " ++ n)) := by
  have hs : (names.find? (fun n => !req.hasArg n)).isSome = true :=
    List.find?_isSome.mpr ⟨a, ha, by rw [h]; rfl⟩
  obtain ⟨n, hn⟩ := Option.isSome_iff_exists.mp hs
  have hpred := List.find?_some hn
  refine ⟨n, List.mem_of_find?_eq_some hn, by simpa using hpred, ?_⟩
  unfold arg_require_all
  rw [hn]

/-- C3: for every operation of the catalogue with required arguments, a
request missing a required argument (for list-jobs: missing both
alternatives) is answered with the error envelope: response code 400, body
serializing status error with a msg that mentions the name of a missing
argument, and the Controller trace stays empty, so validation completes
before any Controller call.  The synchronous operations go through the
render wrapper; push-project and cancel-job write the envelope themselves. -/
theorem C3_missing_argument_never_reaches_controller :
    (∀ c req r, req.hasArg "project" = false →
        (JsonResource.render (.sync (ListSpiders.render_GET c req).1) r).1.code = 400 ∧
        (JsonResource.render (.sync (ListSpiders.render_GET c req).1) r).2
          = some (dumps (.obj (errorEnvelope "Missing argument: project")) ++ "\n") ∧
        strContains "Missing argument: project" "project" = true ∧
        (ListSpiders.render_GET c req).2 = []) ∧
    (∀ c req r a, a ∈ ([ "project", "spider", "when"] : List String) → req.hasArg a = false →
        ∃ n, n ∈ ([ "project", "spider", "when"] : List String) ∧ req.hasArg n = false ∧
          (JsonResource.render (.sync (ScheduleJob.render_POST c req).1) r).1.code = 400 ∧
          (JsonResource.render (.sync (ScheduleJob.render_POST c req).1) r).2
            = some (dumps (.obj (errorEnvelope ("Missing argument: " ++ n))) ++ "\n") ∧
          strContains ("Missing argument: " ++ n) n = true ∧
          (ScheduleJob.render_POST c req).2 = []) ∧
    (∀ valid c req r, req.hasArg "status" = false → req.hasArg "id" = false →
        (JsonResource.render (.sync (ListJobs.render_GET valid c req).1) r).1.code = 400 ∧
        (JsonResource.render (.sync (ListJobs.render_GET valid c req).1) r).2
          = some (dumps (.obj (errorEnvelope "Missing argument: status or id")) ++ "\n") ∧
        strContains "Missing argument: status or id" "status" = true ∧
        strContains "Missing argument: status or id" "id" = true ∧
        (ListJobs.render_GET valid c req).2 = []) ∧
    (∀ c req r, req.wellFormed = true →
        req.hasArg "name" = false ∨ req.hasArg "archive" = false →
        ∃ k, k ∈ ([ "name", "archive"] : List String) ∧ req.hasArg k = false ∧
          (PushProject.render_POST c req r).resp.code = 400 ∧
          (PushProject.render_POST c req r).resp.writes
            = r.writes ++
              [dumps (.obj (errorEnvelope ("Missing argument: " ++ PyErr.str (.keyError k)))) ++ "\n"] ∧
          strContains ("Missing argument: " ++ PyErr.str (.keyError k)) k = true ∧
          (PushProject.render_POST c req r).calls = []) ∧
    (∀ c req r, req.hasArg "id" = false →
        (CancelJob.render_POST c req r).resp.code = 400 ∧
        (CancelJob.render_POST c req r).resp.writes
          = r.writes ++
            [dumps (.obj (errorEnvelope ("Missing argument: " ++ PyErr.str (.keyError "id")))) ++ "\n"] ∧
        strContains ("Missing argument: " ++ PyErr.str (.keyError "id")) "id" = true ∧
        (CancelJob.render_POST c req r).calls = []) := by
  refine ⟨?_, ?_, ?_, ?_, ?_⟩
  · intro c req r h
    have hval : ListSpiders.render_GET c req
        = (.error (.missingArgument ("Missing argument: " ++ "project")), []) := by
      unfold ListSpiders.render_GET
      rw [arg_require_all_single_missing req "project" h]
    rw [hval]
    exact ⟨rfl, rfl, by decide, rfl⟩
  · intro c req r a ha h
    obtain ⟨n, hn_mem, hn_false, hreq⟩ := arg_require_all_missing req _ a ha h
    have hval : ScheduleJob.render_POST c req
        = (.error (.missingArgument ("Missing argument: " ++ n)), []) := by
      unfold ScheduleJob.render_POST
      rw [hreq]
    refine ⟨n, hn_mem, hn_false, ?_, ?_, ?_, ?_⟩
    · rw [hval]; rfl
    · rw [hval]; rfl
    · exact strContains_append_left "Missing argument: " n
    · rw [hval]
  · intro valid c req r h1 h2
    have hany : arg_require_any req [ "status", "id"]
        = .error (.missingArgument ("Missing argument: " ++ String.intercalate " or " [ "status", "id"])) := by
      unfold arg_require_any
      rw [show ([ "status", "id"].any req.hasArg) = false from by simp [h1, h2]]
      rfl
    have hval : ListJobs.render_GET valid c req
        = (.error (.missingArgument ("Missing argument: " ++ String.intercalate " or " [ "status", "id"])), []) := by
      unfold ListJobs.render_GET
      rw [hany]
    rw [hval]
    exact ⟨rfl, rfl, by decide, by decide, rfl⟩
  · intro c req r hwf hmiss
    by_cases hn : req.hasArg "name" = true
    · have ha : req.hasArg "archive" = false := by
        rcases hmiss with h | h
        · rw [hn] at h; exact absurd h (by simp)
        · exact h
      obtain ⟨v, hv⟩ := Request.getFirst_of_wf_hasArg req "name" hwf hn
      have hparse : PushProject.parse req = .error (.keyError "archive") := by
        unfold PushProject.parse
        rw [hv, Request.getFirst_of_hasArg_false req "archive" ha]
        rfl
      refine ⟨"archive", by decide, ha, ?_, ?_, by decide, ?_⟩
      · unfold PushProject.render_POST
        rw [hparse]; rfl
      · unfold PushProject.render_POST
        rw [hparse]
        simp [render_json, Response.setCode, Response.writeBody, Response.finish]
      · unfold PushProject.render_POST
        rw [hparse]
    · have hn' : req.hasArg "name" = false := by simpa using hn
      have hparse : PushProject.parse req = .error (.keyError "name") := by
        unfold PushProject.parse
        rw [Request.getFirst_of_hasArg_false req "name" hn']
        rfl
      refine ⟨"name", by decide, hn', ?_, ?_, by decide, ?_⟩
      · unfold PushProject.render_POST
        rw [hparse]; rfl
      · unfold PushProject.render_POST
        rw [hparse]
        simp [render_json, Response.setCode, Response.writeBody, Response.finish]
      · unfold PushProject.render_POST
        rw [hparse]
  · intro c req r h
    have hid : req.getFirst "id" = .error (.keyError "id") :=
      Request.getFirst_of_hasArg_false req "id" h
    refine ⟨?_, ?_, by decide, ?_⟩
    · unfold CancelJob.render_POST
      rw [hid]; rfl
    · unfold CancelJob.render_POST
      rw [hid]
      simp [render_json, Response.setCode, Response.writeBody, Response.finish]
    · unfold CancelJob.render_POST
      rw [hid]

/-- Closed instantiation of the C3 theorem on the empty request. -/
theorem C3_missing_argument_witness :
    ((JsonResource.render (.sync (ListSpiders.render_GET ctrlStub reqEmpty).1) respInit).1.code = 400 ∧
     (JsonResource.render (.sync (ListSpiders.render_GET ctrlStub reqEmpty).1) respInit).2
       = some (dumps (.obj (errorEnvelope "Missing argument: project")) ++ "\n") ∧
     strContains "Missing argument: project" "project" = true ∧
     (ListSpiders.render_GET ctrlStub reqEmpty).2 = []) ∧
    (∃ n, n ∈ ([ "project", "spider", "when"] : List String) ∧ reqEmpty.hasArg n = false ∧
       (JsonResource.render (.sync (ScheduleJob.render_POST ctrlStub reqEmpty).1) respInit).1.code = 400 ∧
       (JsonResource.render (.sync (ScheduleJob.render_POST ctrlStub reqEmpty).1) respInit).2
         = some (dumps (.obj (errorEnvelope ("Missing argument: " ++ n))) ++ "\n") ∧
       strContains ("Missing argument: " ++ n) n = true ∧
       (ScheduleJob.render_POST ctrlStub reqEmpty).2 = []) ∧
    ((JsonResource.render (.sync (ListJobs.render_GET statusNames ctrlStub reqEmpty).1) respInit).1.code = 400 ∧
     (JsonResource.render (.sync (ListJobs.render_GET statusNames ctrlStub reqEmpty).1) respInit).2
       = some (dumps (.obj (errorEnvelope "Missing argument: status or id")) ++ "\n") ∧
     strContains "Missing argument: status or id" "status" = true ∧
     strContains "Missing argument: status or id" "id" = true ∧
     (ListJobs.render_GET statusNames ctrlStub reqEmpty).2 = []) ∧
    (∃ k, k ∈ ([ "name", "archive"] : List String) ∧ reqEmpty.hasArg k = false ∧
       (PushProject.render_POST ctrlStub reqEmpty respInit).resp.code = 400 ∧
       (PushProject.render_POST ctrlStub reqEmpty respInit).resp.writes
         = respInit.writes ++
           [dumps (.obj (errorEnvelope ("Missing argument: " ++ PyErr.str (.keyError k)))) ++ "\n"] ∧
       strContains ("Missing argument: " ++ PyErr.str (.keyError k)) k = true ∧
       (PushProject.render_POST ctrlStub reqEmpty respInit).calls = []) ∧
    ((CancelJob.render_POST ctrlStub reqEmpty respInit).resp.code = 400 ∧
     (CancelJob.render_POST ctrlStub reqEmpty respInit).resp.writes
       = respInit.writes ++
         [dumps (.obj (errorEnvelope ("Missing argument: " ++ PyErr.str (.keyError "id")))) ++ "\n"] ∧
     strContains ("Missing argument: " ++ PyErr.str (.keyError "id")) "id" = true ∧
     (CancelJob.render_POST ctrlStub reqEmpty respInit).calls = []) :=
  ⟨C3_missing_argument_never_reaches_controller.1 ctrlStub reqEmpty respInit rfl,
   C3_missing_argument_never_reaches_controller.2.1 ctrlStub reqEmpty respInit "project" (by decide) rfl,
   C3_missing_argument_never_reaches_controller.2.2.1 statusNames ctrlStub reqEmpty respInit rfl rfl,
   C3_missing_argument_never_reaches_controller.2.2.2.1 ctrlStub reqEmpty respInit rfl (Or.inl rfl),
   C3_missing_argument_never_reaches_controller.2.2.2.2 ctrlStub reqEmpty respInit rfl⟩


/-- C4: for every outcome of the asynchronous operations, the envelope the
hand-written completion path of push-project and cancel-job writes is the
envelope the generic render wrapper would produce for the same outcome: the
hand-built dict equals the generic success envelope, the written body equals
the body the wrapper would return, and response code, content type and
content length agree; the cancel-job validation failure path likewise matches
the wrapper's envelope for an error with the same message. -/
theorem C4_async_paths_match_render_wrapper :
    (∀ c req r name data spiders, PushProject.parse req = .ok (name, data) →
        c.push_project name data = .ok spiders →
        ([("status", JValue.str "ok"), ("spiders", JValue.arr (spiders.map JValue.str))] : JObj)
          = successEnvelope [("spiders", JValue.arr (spiders.map JValue.str))] ∧
        (PushProject.render_POST c req r).resp.writes
          = r.writes ++ [(JsonResource.render
              (.sync (.ok [("spiders", JValue.arr (spiders.map JValue.str))])) r).2.getD ""] ∧
        (PushProject.render_POST c req r).resp.code
          = (JsonResource.render (.sync (.ok [("spiders", JValue.arr (spiders.map JValue.str))])) r).1.code ∧
        (PushProject.render_POST c req r).resp.contentType
          = (JsonResource.render (.sync (.ok [("spiders", JValue.arr (spiders.map JValue.str))])) r).1.contentType ∧
        (PushProject.render_POST c req r).resp.contentLength
          = (JsonResource.render (.sync (.ok [("spiders", JValue.arr (spiders.map JValue.str))])) r).1.contentLength) ∧
    (∀ c req r name data m, PushProject.parse req = .ok (name, data) →
        c.push_project name data = .error m →
        errorEnvelope m = errorEnvelope (PyErr.str (.controllerError m)) ∧
        (PushProject.render_POST c req r).resp.writes
          = r.writes ++ [(JsonResource.render (.sync (.error (.controllerError m))) r).2.getD ""] ∧
        (PushProject.render_POST c req r).resp.code
          = (JsonResource.render (.sync (.error (.controllerError m))) r).1.code ∧
        (PushProject.render_POST c req r).resp.contentType
          = (JsonResource.render (.sync (.error (.controllerError m))) r).1.contentType ∧
        (PushProject.render_POST c req r).resp.contentLength
          = (JsonResource.render (.sync (.error (.controllerError m))) r).1.contentLength) ∧
    (∀ c req r i, req.getFirst "id" = .ok i → c.cancel_job i = .ok () →
        ([("status", JValue.str "ok")] : JObj) = successEnvelope [] ∧
        (CancelJob.render_POST c req r).resp.writes
          = r.writes ++ [(JsonResource.render (.sync (.ok [])) r).2.getD ""] ∧
        (CancelJob.render_POST c req r).resp.code
          = (JsonResource.render (.sync (.ok [])) r).1.code ∧
        (CancelJob.render_POST c req r).resp.contentType
          = (JsonResource.render (.sync (.ok [])) r).1.contentType ∧
        (CancelJob.render_POST c req r).resp.contentLength
          = (JsonResource.render (.sync (.ok [])) r).1.contentLength) ∧
    (∀ c req r i m, req.getFirst "id" = .ok i → c.cancel_job i = .error m →
        (CancelJob.render_POST c req r).resp.writes
          = r.writes ++ [(JsonResource.render (.sync (.error (.controllerError m))) r).2.getD ""] ∧
        (CancelJob.render_POST c req r).resp.code
          = (JsonResource.render (.sync (.error (.controllerError m))) r).1.code) ∧
    (∀ c req r, req.hasArg "id" = false →
        (CancelJob.render_POST c req r).resp.writes
          = r.writes ++ [(JsonResource.render
              (.sync (.error (.missingArgument
                ("Missing argument: " ++ PyErr.str (.keyError "id"))))) r).2.getD ""] ∧
        (CancelJob.render_POST c req r).resp.code
          = (JsonResource.render (.sync (.error (.missingArgument
                ("Missing argument: " ++ PyErr.str (.keyError "id"))))) r).1.code) := by
  refine ⟨?_, ?_, ?_, ?_, ?_⟩
  · intro c req r name data spiders hp hc
    simp only [PushProject.render_POST, hp, hc]
    exact ⟨rfl, rfl, rfl, rfl, rfl⟩
  · intro c req r name data m hp hc
    simp only [PushProject.render_POST, hp, hc]
    exact ⟨rfl, rfl, rfl, rfl, rfl⟩
  · intro c req r i hi hc
    simp only [CancelJob.render_POST, hi, hc]
    exact ⟨rfl, rfl, rfl, rfl, rfl⟩
  · intro c req r i m hi hc
    simp only [CancelJob.render_POST, hi, hc]
    exact ⟨rfl, rfl⟩
  · intro c req r h
    have hid : req.getFirst "id" = .error (.keyError "id") :=
      Request.getFirst_of_hasArg_false req "id" h
    simp only [CancelJob.render_POST, hid]
    exact ⟨rfl, rfl⟩

/-- Closed instantiation of the C4 theorem on concrete requests, a succeeding
and a failing controller. -/
theorem C4_async_paths_witness :
    ([("status", JValue.str "ok"),
      ("spiders", JValue.arr (([ "spiderA", "spiderB"] : List String).map JValue.str))] : JObj)
      = successEnvelope [("spiders", JValue.arr (([ "spiderA", "spiderB"] : List String).map JValue.str))] ∧
    errorEnvelope "boom" = errorEnvelope (PyErr.str (.controllerError "boom")) ∧
    ([("status", JValue.str "ok")] : JObj) = successEnvelope [] ∧
    (CancelJob.render_POST ctrlFail reqIdArg respInit).resp.code
      = (JsonResource.render (.sync (.error (.controllerError "boom"))) respInit).1.code ∧
    (CancelJob.render_POST ctrlStub reqEmpty respInit).resp.writes
      = respInit.writes ++ [(JsonResource.render
          (.sync (.error (.missingArgument
            ("Missing argument: " ++ PyErr.str (.keyError "id"))))) respInit).2.getD ""] :=
  ⟨(C4_async_paths_match_render_wrapper.1 ctrlStub reqPush respInit "p1" "bytes"
      [ "spiderA", "spiderB"] rfl rfl).1,
   (C4_async_paths_match_render_wrapper.2.1 ctrlFail reqPush respInit "p1" "bytes" "boom"
      rfl rfl).1,
   (C4_async_paths_match_render_wrapper.2.2.1 ctrlStub reqIdArg respInit "j1" rfl rfl).1,
   (C4_async_paths_match_render_wrapper.2.2.2.1 ctrlFail reqIdArg respInit "j1" "boom"
      rfl rfl).2,
   (C4_async_paths_match_render_wrapper.2.2.2.2 ctrlStub reqEmpty respInit rfl).1⟩

/-- C5: every POST to push-project or cancel-job hands the not-done-yet
sentinel back to the framework, and on every execution path of a well-formed
request (validation failure, Controller success, Controller failure) the
response is written exactly once and finished exactly once. -/
theorem C5_async_write_finish_once (c : Controller) (req : Request) (r : Response)
    (hwf : req.wellFormed = true) :
    ((PushProject.render_POST c req r).returned = .notDoneYet ∧
     (PushProject.render_POST c req r).resp.finished = r.finished + 1 ∧
     (PushProject.render_POST c req r).resp.writes.length = r.writes.length + 1) ∧
    ((CancelJob.render_POST c req r).returned = .notDoneYet ∧
     (CancelJob.render_POST c req r).resp.finished = r.finished + 1 ∧
     (CancelJob.render_POST c req r).resp.writes.length = r.writes.length + 1) := by
  constructor
  · by_cases hn : req.hasArg "name" = true
    · obtain ⟨v, hv⟩ := Request.getFirst_of_wf_hasArg req "name" hwf hn
      by_cases ha : req.hasArg "archive" = true
      · obtain ⟨w, hw⟩ := Request.getFirst_of_wf_hasArg req "archive" hwf ha
        have hp : PushProject.parse req = .ok (v, w) := by
          unfold PushProject.parse
          rw [hv, hw]
          rfl
        cases hc : c.push_project v w with
        | ok spiders =>
          simp [PushProject.render_POST, hp, hc, render_json,
                Response.writeBody, Response.finish, Response.setCode]
        | error m =>
          simp [PushProject.render_POST, hp, hc, render_json,
                Response.writeBody, Response.finish, Response.setCode]
      · have ha' : req.hasArg "archive" = false := by simpa using ha
        have hp : PushProject.parse req = .error (.keyError "archive") := by
          unfold PushProject.parse
          rw [hv, Request.getFirst_of_hasArg_false req "archive" ha']
          rfl
        simp [PushProject.render_POST, hp, render_json,
              Response.writeBody, Response.finish, Response.setCode]
    · have hn' : req.hasArg "name" = false := by simpa using hn
      have hp : PushProject.parse req = .error (.keyError "name") := by
        unfold PushProject.parse
        rw [Request.getFirst_of_hasArg_false req "name" hn']
        rfl
      simp [PushProject.render_POST, hp, render_json,
            Response.writeBody, Response.finish, Response.setCode]
  · by_cases hi : req.hasArg "id" = true
    · obtain ⟨v, hv⟩ := Request.getFirst_of_wf_hasArg req "id" hwf hi
      cases hc : c.cancel_job v with
      | ok u =>
        cases u
        simp [CancelJob.render_POST, hv, hc, render_json,
              Response.writeBody, Response.finish, Response.setCode]
      | error m =>
        simp [CancelJob.render_POST, hv, hc, render_json,
              Response.writeBody, Response.finish, Response.setCode]
    · have hi' : req.hasArg "id" = false := by simpa using hi
      simp [CancelJob.render_POST, Request.getFirst_of_hasArg_false req "id" hi',
            render_json, Response.writeBody, Response.finish, Response.setCode]

/-- Closed instantiation of the C5 theorem on a well-formed request. -/
theorem C5_async_write_finish_once_witness :
    (PushProject.render_POST ctrlStub reqPush respInit).resp.finished = respInit.finished + 1 ∧
    (CancelJob.render_POST ctrlStub reqPush respInit).resp.writes.length
      = respInit.writes.length + 1 :=
  ⟨((C5_async_write_finish_once ctrlStub reqPush respInit rfl).1).2.1,
   ((C5_async_write_finish_once ctrlStub reqPush respInit rfl).2).2.2⟩


/-- C6: list-jobs accepts status and id as alternatives: with neither present
the request fails with a MissingArgument error and the Controller is not
called; with the status argument present, its decoded value goes to get_jobs
whether or not id is also present; with only id present, get_job is called
and its single result is wrapped in a one-element jobs list. -/
theorem C6_list_jobs_alternatives :
    (∀ valid c req, req.hasArg "status" = false → req.hasArg "id" = false →
        ∃ m, ListJobs.render_GET valid c req = (.error (.missingArgument m), [])) ∧
    (∀ valid c req s jobs, req.getFirst "status" = .ok s → valid.contains s = true →
        c.get_jobs s = .ok jobs →
        ListJobs.render_GET valid c req
          = (.ok [("jobs", JValue.arr (jobs.map (fun j => JValue.obj j.to_dict)))],
             [.get_jobs s])) ∧
    (∀ valid c req i job, req.hasArg "status" = false → req.getFirst "id" = .ok i →
        c.get_job i = .ok job →
        ListJobs.render_GET valid c req
          = (.ok [("jobs", JValue.arr [JValue.obj job.to_dict])], [.get_job i])) := by
  refine ⟨?_, ?_, ?_⟩
  · intro valid c req h1 h2
    refine ⟨"Missing argument: " ++ String.intercalate " or " [ "status", "id"], ?_⟩
    have hany : arg_require_any req [ "status", "id"]
        = .error (.missingArgument
            ("Missing argument: " ++ String.intercalate " or " [ "status", "id"])) := by
      unfold arg_require_any
      rw [show ([ "status", "id"].any req.hasArg) = false from by simp [h1, h2]]
      rfl
    unfold ListJobs.render_GET
    rw [hany]
  · intro valid c req s jobs hs hv hj
    have hhas : req.hasArg "status" = true := Request.hasArg_of_getFirst_ok req "status" s hs
    have hany : arg_require_any req [ "status", "id"] = .ok () := by
      unfold arg_require_any
      rw [show ([ "status", "id"].any req.hasArg) = true from by simp [hhas]]
      rfl
    have hlook : jobStatusLookup valid s = .ok s := by
      unfold jobStatusLookup
      rw [hv]
      rfl
    simp [ListJobs.render_GET, hany, hhas, hs, hlook, hj]
  · intro valid c req i job h1 hi hjob
    have hid : req.hasArg "id" = true := Request.hasArg_of_getFirst_ok req "id" i hi
    have hany : arg_require_any req [ "status", "id"] = .ok () := by
      unfold arg_require_any
      rw [show ([ "status", "id"].any req.hasArg) = true from by simp [hid]]
      rfl
    simp [ListJobs.render_GET, hany, h1, hi, hjob]

/-- Closed instantiation of the C6 theorem: no argument, both arguments, and
only the id argument. -/
theorem C6_list_jobs_alternatives_witness :
    (∃ m, ListJobs.render_GET statusNames ctrlStub reqEmpty = (.error (.missingArgument m), [])) ∧
    ListJobs.render_GET statusNames ctrlStub reqStatusAndId
      = (.ok [("jobs", JValue.arr [JValue.obj [("identifier", JValue.str "j1")]])],
         [.get_jobs "RUNNING"]) ∧
    ListJobs.render_GET statusNames ctrlStub reqIdArg
      = (.ok [("jobs", JValue.arr [JValue.obj [("identifier", JValue.str "j1")]])],
         [.get_job "j1"]) :=
  ⟨C6_list_jobs_alternatives.1 statusNames ctrlStub reqEmpty rfl rfl,
   C6_list_jobs_alternatives.2.1 statusNames ctrlStub reqStatusAndId "RUNNING"
     [⟨[("identifier", JValue.str "j1")]⟩] rfl rfl rfl,
   C6_list_jobs_alternatives.2.2 statusNames ctrlStub reqIdArg "j1"
     ⟨[("identifier", JValue.str "j1")]⟩ rfl rfl rfl⟩

/-- C7: a list-jobs request whose status argument does not name a member of
the Job Status enumeration fails with an UnknownStatus error, which the
render wrapper converts to the standard error envelope with code 400; a body
is always produced, so nothing escapes the JSON layer. -/
theorem C7_unknown_status_error_envelope (valid : List String) (c : Controller)
    (req : Request) (r : Response) (s : String)
    (hs : req.getFirst "status" = .ok s) (hv : valid.contains s = false) :
    (ListJobs.render_GET valid c req).1 = .error (.unknownStatus ("Unknown status: " ++ s)) ∧
    (JsonResource.render (.sync (ListJobs.render_GET valid c req).1) r).1.code = 400 ∧
    (JsonResource.render (.sync (ListJobs.render_GET valid c req).1) r).2
      = some (dumps (.obj (errorEnvelope ("Unknown status: " ++ s))) ++ "\n") ∧
    ((JsonResource.render (.sync (ListJobs.render_GET valid c req).1) r).2).isSome = true := by
  have hhas : req.hasArg "status" = true := Request.hasArg_of_getFirst_ok req "status" s hs
  have hany : arg_require_any req [ "status", "id"] = .ok () := by
    unfold arg_require_any
    rw [show ([ "status", "id"].any req.hasArg) = true from by simp [hhas]]
    rfl
  have hlook : jobStatusLookup valid s = .error (.unknownStatus ("Unknown status: " ++ s)) := by
    unfold jobStatusLookup
    rw [hv]
    rfl
  have hval : ListJobs.render_GET valid c req
      = (.error (.unknownStatus ("Unknown status: " ++ s)), []) := by
    simp [ListJobs.render_GET, hany, hhas, hs, hlook]
  rw [hval]
  exact ⟨rfl, rfl, rfl, rfl⟩

/-- Closed instantiation of the C7 theorem on an unregistered status name. -/
theorem C7_unknown_status_witness :
    (ListJobs.render_GET statusNames ctrlStub reqBadStatus).1
      = .error (.unknownStatus ("Unknown status: " ++ "UNKNOWN")) ∧
    (JsonResource.render (.sync (ListJobs.render_GET statusNames ctrlStub reqBadStatus).1)
        respInit).1.code = 400 :=
  ⟨(C7_unknown_status_error_envelope statusNames ctrlStub reqBadStatus respInit "UNKNOWN"
      rfl rfl).1,
   (C7_unknown_status_error_envelope statusNames ctrlStub reqBadStatus respInit "UNKNOWN"
      rfl rfl).2.1⟩

/-- C10: when both the status and the id argument are present, list-jobs
takes the status branch: the decoded status goes to get_jobs and get_job is
never invoked, so the id argument is silently ignored. -/
theorem C10_both_args_status_branch (valid : List String) (c : Controller) (req : Request)
    (s : String) (h_id : req.hasArg "id" = true) (hs : req.getFirst "status" = .ok s)
    (hv : valid.contains s = true) :
    (ListJobs.render_GET valid c req).2 = [.get_jobs s] ∧
    ∀ i, CtrlCall.get_job i ∉ (ListJobs.render_GET valid c req).2 := by
  have hhas : req.hasArg "status" = true := Request.hasArg_of_getFirst_ok req "status" s hs
  have hany : arg_require_any req [ "status", "id"] = .ok () := by
    unfold arg_require_any
    rw [show ([ "status", "id"].any req.hasArg) = true from by simp [hhas]]
    rfl
  have hlook : jobStatusLookup valid s = .ok s := by
    unfold jobStatusLookup
    rw [hv]
    rfl
  have hcalls : (ListJobs.render_GET valid c req).2 = [.get_jobs s] := by
    cases hj : c.get_jobs s with
    | ok jobs => simp [ListJobs.render_GET, hany, hhas, hs, hlook, hj]
    | error m => simp [ListJobs.render_GET, hany, hhas, hs, hlook, hj]
  refine ⟨hcalls, ?_⟩
  intro i
  rw [hcalls]
  simp

/-- Closed instantiation of the C10 theorem on a request with both
arguments. -/
theorem C10_both_args_witness :
    (ListJobs.render_GET statusNames ctrlStub reqStatusAndId).2 = [.get_jobs "RUNNING"] ∧
    ∀ i, CtrlCall.get_job i ∉ (ListJobs.render_GET statusNames ctrlStub reqStatusAndId).2 :=
  C10_both_args_status_branch statusNames ctrlStub reqStatusAndId "RUNNING" rfl rfl rfl

/-- C8 counterexample: for a cancel-job POST with no id argument, the written
body is not the serialization of the envelope with msg Missing argument: id,
because Python str of KeyError wraps the bytes key in the b-prefixed quoted
repr. -/
theorem C8_missing_id_counterexample :
    (CancelJob.render_POST ctrlStub reqEmpty respInit).resp.writes
      ≠ [dumps (.obj (errorEnvelope "Missing argument: id")) ++ "\n"] := by
  decide

/-- C8 amended: for a cancel-job POST with no id argument, the immediately
written body is exactly the envelope with msg Missing argument: b\x27id\x27
(the Python str of the KeyError on the bytes key), the response code is 400,
the response is finished, and the cancel operation of the Controller is never
invoked. -/
theorem C8_missing_id_amended (c : Controller) (req : Request) (r : Response)
    (h : req.hasArg "id" = false) :
    (CancelJob.render_POST c req r).resp.writes
      = r.writes ++ [dumps (.obj (errorEnvelope "Missing argument: b\x27id\x27")) ++ "\n"] ∧
    (CancelJob.render_POST c req r).resp.code = 400 ∧
    (CancelJob.render_POST c req r).resp.finished = r.finished + 1 ∧
    (CancelJob.render_POST c req r).calls = [] := by
  have hid : req.getFirst "id" = .error (.keyError "id") :=
    Request.getFirst_of_hasArg_false req "id" h
  refine ⟨?_, ?_, ?_, ?_⟩
  all_goals
    unfold CancelJob.render_POST
    rw [hid]
    try rfl

/-- Closed instantiation of the amended C8 theorem on the empty request. -/
theorem C8_missing_id_amended_witness :
    (CancelJob.render_POST ctrlStub reqEmpty respInit).resp.writes
      = respInit.writes ++ [dumps (.obj (errorEnvelope "Missing argument: b\x27id\x27")) ++ "\n"] ∧
    (CancelJob.render_POST ctrlStub reqEmpty respInit).resp.code = 400 ∧
    (CancelJob.render_POST ctrlStub reqEmpty respInit).resp.finished = respInit.finished + 1 ∧
    (CancelJob.render_POST ctrlStub reqEmpty respInit).calls = [] :=
  C8_missing_id_amended ctrlStub reqEmpty respInit rfl

/-- C9: with the auth flag off, get_web_app exposes the resource tree with no
gate; with it on, the tree sits behind an HTTP Digest gate with algorithm
md5, the fixed realm token, and the file credential store at the configured
path; every successful avatar request for IResource yields a fresh WebApp
with the same routing and the same controller as the ungated tree. -/
theorem C9_auth_gate_two_modes (cfg : Config) (c : Controller) :
    (cfg.web_auth = false → get_web_app cfg c = .plain (mkWebApp cfg c)) ∧
    (cfg.web_auth = true → get_web_app cfg c
        = .digestGuarded { config := cfg, controller := c } cfg.web_auth_db "md5" "scrapy-do") ∧
    (∀ ifs : List Interface, Interface.iResource ∈ ifs →
        PublicHTMLRealm.requestAvatar { config := cfg, controller := c } ifs
          = .ok (mkWebApp cfg c) ∧
        (mkWebApp cfg c).routes = ("", "Home") :: cfg.web_modules ∧
        (mkWebApp cfg c).controller = c) := by
  refine ⟨?_, ?_, ?_⟩
  · intro h
    unfold get_web_app
    rw [h]
    rfl
  · intro h
    unfold get_web_app
    rw [h]
    rfl
  · intro ifs hmem
    refine ⟨?_, rfl, rfl⟩
    unfold PublicHTMLRealm.requestAvatar
    rw [show ifs.contains Interface.iResource = true from List.elem_eq_true_of_mem hmem]
    rfl

/-- Closed instantiation of the C9 theorem in both configuration modes. -/
theorem C9_auth_gate_witness :
    get_web_app ⟨false, "passwd", []⟩ ctrlStub = .plain (mkWebApp ⟨false, "passwd", []⟩ ctrlStub) ∧
    get_web_app ⟨true, "passwd", []⟩ ctrlStub
      = .digestGuarded { config := ⟨true, "passwd", []⟩, controller := ctrlStub }
          "passwd" "md5" "scrapy-do" ∧
    (PublicHTMLRealm.requestAvatar { config := ⟨false, "passwd", []⟩, controller := ctrlStub }
        [Interface.iResource] = .ok (mkWebApp ⟨false, "passwd", []⟩ ctrlStub) ∧
     (mkWebApp ⟨false, "passwd", []⟩ ctrlStub).routes = ("", "Home") :: ([] : List (String × String)) ∧
     (mkWebApp ⟨false, "passwd", []⟩ ctrlStub).controller = ctrlStub) :=
  ⟨(C9_auth_gate_two_modes ⟨false, "passwd", []⟩ ctrlStub).1 rfl,
   (C9_auth_gate_two_modes ⟨true, "passwd", []⟩ ctrlStub).2.1 rfl,
   (C9_auth_gate_two_modes ⟨false, "passwd", []⟩ ctrlStub).2.2 [Interface.iResource]
     (List.mem_singleton.mpr rfl)⟩
